import Mathlib

/-!
Verification development for the moderation-report and personal-access-token
(PAT) subsystem of the labrinth-minos service.

The embedding is shallow: the stored tables (`pats`, `reports`, thread
messages) are Lean lists of rows, timestamps are integers (seconds), and the
base62 string codec at the HTTP boundary — which the specification treats as
an opaque reversible integer/string codec, out of scope — is elided, so
identifiers and token secrets are kept as the decoded natural numbers.
Each handler from `src/routes/v2/pats.rs`, `src/routes/v2/reports.rs`,
`src/util/pat.rs` and `src/database/models/report_item.rs` becomes a pure
function from the store (and explicitly passed current time / minted ids,
replacing `Utc::now()` and the id generator) to its outcome and the list of
row writes it commits; a rolled-back transaction commits no writes.
-/

namespace Minos

/-- Seconds in one day: the unit behind `chrono::Duration::days`. -/
def secondsPerDay : Int := 86400

/-- Error taxonomy reaching the client.  `invalidInput` renders as HTTP 400
with a message (`ApiError::InvalidInput` in `routes/v2/reports.rs`);
`notFoundError` renders as HTTP 404.  The `ApiError` enum itself lives in
`routes/mod.rs`, outside the files at hand. -/
inductive ApiError where
  | invalidInput (msg : String)
  | notFoundError
deriving DecidableEq

/-- A stored PAT row (`pats` table): identifier, secret access-token value,
owning user, scope string, expiry timestamp.  Mirrors the columns selected
and written by `routes/v2/pats.rs` and `util/pat.rs`. -/
structure Pat where
  id : Nat
  access_token : Nat
  user_id : Nat
  scope : String
  expires_at : Int
deriving DecidableEq

/-- The `pats` table. -/
abbrev PatStore := List Pat

/-- The `(secret, owner)` lookup key used by `edit_pat` / `delete_pat`
(`WHERE access_token = $1 AND user_id = $2`). -/
def patMatches (tok owner : Nat) (p : Pat) : Bool :=
  p.access_token == tok && p.user_id == owner

/-- Modelled from the spec: `generate_pat` / `generate_pat_id` (the ID
Generator, §4.1, whose source is not among the given files) mint a random
value that does not collide with any value already stored for its kind.
Freshness of a minted secret is expressed as this predicate on the store. -/
def freshSecretFor (store : PatStore) (s : Nat) : Prop :=
  ∀ p ∈ store, p.access_token ≠ s

instance (store : PatStore) (s : Nat) : Decidable (freshSecretFor store s) :=
  inferInstanceAs (Decidable (∀ p ∈ store, p.access_token ≠ s))

/-- `get_user_from_pat` (`src/util/pat.rs`): single read
`SELECT ... FROM pats ... WHERE access_token = $1`; if a row is found but
`expires_at < now`, no identity is returned.  The joined user record is
reduced to the owning user id. -/
def get_user_from_pat (store : PatStore) (secret : Nat) (now : Int) : Option Nat :=
  match store.find? (fun p => p.access_token == secret) with
  | none => none
  | some row => if row.expires_at < now then none else some row.user_id

/-- `get_pats` (`src/routes/v2/pats.rs`):
`SELECT ... FROM pats WHERE user_id = $1`, no expiry filter. -/
def get_pats (store : PatStore) (owner : Nat) : List Pat :=
  store.filter (fun p => p.user_id == owner)

/-- `create_pat` (`src/routes/v2/pats.rs`): mints an id and a secret
(passed in as `freshId` / `freshSecret`, see `freshSecretFor`), computes
`expires_at = now + expire_in_days days`, inserts the row and returns it.
The returned pair is (created row as echoed to the caller, new store). -/
def create_pat (store : PatStore) (owner : Nat) (scope : String)
    (expire_in_days : Int) (now : Int) (freshId freshSecret : Nat) :
    Pat × PatStore :=
  let row : Pat :=
    { id := freshId
      access_token := freshSecret
      user_id := owner
      scope := scope
      expires_at := now + expire_in_days * secondsPerDay }
  (row, store ++ [row])

/-- `edit_pat` (`src/routes/v2/pats.rs`): looks the row up by the
`(access_token, user_id)` pair with `fetch_one`; each provided field
replaces the stored one, a provided ttl recomputes `expires_at` from `now`;
the row is then written back wholesale (`UPDATE pats SET access_token, scope,
user_id, expires_at WHERE id`).  Modelled from the spec: the
`From<sqlx::Error>` conversion behind `?` (in `routes/mod.rs`, not among the
given files) surfaces the failed `fetch_one` of an unknown token/owner pair
as not-found, per §6: "404 if token/owner pair unknown". -/
def edit_pat (store : PatStore) (caller : Nat) (access_token : Nat)
    (scope : Option String) (expire_in_days : Option Int) (now : Int) :
    Except ApiError (Pat × PatStore) :=
  match store.find? (patMatches access_token caller) with
  | none => .error .notFoundError
  | some row =>
      let pat : Pat :=
        { id := row.id
          access_token := row.access_token
          user_id := caller
          scope := scope.getD row.scope
          expires_at :=
            match expire_in_days with
            | some d => now + d * secondsPerDay
            | none => row.expires_at }
      .ok (pat, store.map (fun q => if q.id == row.id then pat else q))

/-- `ItemType` (`models/reports.rs`): the polymorphic report-target tag. -/
inductive ItemType where
  | project
  | version
  | user
  | unknown
deriving DecidableEq

/-- A joined report row as `Report::get_many` returns it (`QueryReport` in
`src/database/models/report_item.rs`): the report-type name resolved through
the catalog join, the three nullable target columns, and the thread link. -/
structure QueryReport where
  id : Nat
  report_type : String
  project_id : Option Nat
  version_id : Option Nat
  user_id : Option Nat
  body : String
  reporter : Nat
  created : Int
  closed : Bool
  thread_id : Option Nat
deriving DecidableEq

/-- The `reports` table, in joined form. -/
abbrev ReportStore := List QueryReport

/-- The external report view (`models/reports.rs::Report`), as built by
`to_report` in `src/routes/v2/reports.rs`. -/
structure ReportView where
  id : Nat
  report_type : String
  item_id : String
  item_type : ItemType
  reporter : Nat
  body : String
  created : Int
  closed : Bool
  thread_id : Option Nat
deriving DecidableEq

/-- Stand-in for the opaque reversible integer-to-string codec
(base62 + serde) applied to target ids at the boundary; the codec itself is
outside the core per §1. -/
def encodeId (n : Nat) : String := toString n

/-- `to_report` (`src/routes/v2/reports.rs`): renders a stored row to the
external view; the first set target column wins (`if let` chain
project / version / user), no target maps to `ItemType::Unknown` with an
empty item id. -/
def to_report (x : QueryReport) : ReportView :=
  let p : String × ItemType :=
    match x.project_id with
    | some pid => (encodeId pid, .project)
    | none =>
      match x.version_id with
      | some vid => (encodeId vid, .version)
      | none =>
        match x.user_id with
        | some uid => (encodeId uid, .user)
        | none => ("", .unknown)
  { id := x.id
    report_type := x.report_type
    item_id := p.1
    item_type := p.2
    reporter := x.reporter
    body := x.body
    created := x.created
    closed := x.closed
    thread_id := x.thread_id }

/-- Ordering used by the listing query `ORDER BY created ASC`. -/
def byCreatedAsc (a b : QueryReport) : Prop := a.created ≤ b.created

/-- Ordering used by `get_many`'s query `ORDER BY created DESC`. -/
def byCreatedDesc (a b : QueryReport) : Prop := b.created ≤ a.created

instance : DecidableRel byCreatedAsc :=
  fun a b => inferInstanceAs (Decidable (a.created ≤ b.created))

instance : DecidableRel byCreatedDesc :=
  fun a b => inferInstanceAs (Decidable (b.created ≤ a.created))

instance : IsTotal QueryReport byCreatedAsc :=
  ⟨fun a b => Int.le_total a.created b.created⟩

instance : IsTrans QueryReport byCreatedAsc :=
  ⟨fun _ _ _ h h2 => le_trans h h2⟩

instance : IsTotal QueryReport byCreatedDesc :=
  ⟨fun a b => Int.le_total b.created a.created⟩

instance : IsTrans QueryReport byCreatedDesc :=
  ⟨fun _ _ _ h h2 => le_trans h2 h⟩

/-- `Report::get_many` (`src/database/models/report_item.rs`):
`SELECT ... WHERE r.id = ANY($1) ORDER BY r.created DESC`. -/
def get_many (st : ReportStore) (ids : List Nat) : List QueryReport :=
  List.insertionSort byCreatedDesc (st.filter (fun r => ids.contains r.id))

/-- `Report::get` (`src/database/models/report_item.rs`): `get_many` on the
singleton id list, taking the first returned row. -/
def report_get_row (st : ReportStore) (id : Nat) : Option QueryReport :=
  (get_many st [id]).head?

/-- Outward result of `GET /report/{id}`: 200 with a view, or 404 with an
empty body. -/
inductive GetOutcome where
  | ok (v : ReportView)
  | notFound
deriving DecidableEq

/-- `report_get` (`src/routes/v2/reports.rs`): loads the row; a caller who is
neither a moderator nor the reporter gets the same `NotFound` empty-body
response as for an absent row. -/
def report_get (st : ReportStore) (caller : Nat) (isMod : Bool) (id : Nat) :
    GetOutcome :=
  match report_get_row st id with
  | some r =>
      if !isMod && r.reporter != caller then .notFound
      else .ok (to_report r)
  | none => .notFound

/-- The `PATCH /report/{id}` JSON body (`EditReport` in
`src/routes/v2/reports.rs`). -/
structure EditReport where
  body : Option String
  closed : Option Bool
deriving DecidableEq

/-- System thread-message payloads used on closure transitions
(`MessageBody::ThreadClosure` / `MessageBody::ThreadReopen`). -/
inductive MessageBody where
  | threadClosure
  | threadReopen
deriving DecidableEq

/-- A thread message row as built by `ThreadMessageBuilder`. -/
structure ThreadMessage where
  author_id : Option Nat
  body : MessageBody
  thread_id : Nat
deriving DecidableEq

/-- A single row write issued inside the edit transaction, in issue order. -/
inductive Write where
  | updateBody (id : Nat) (body : String)
  | postMessage (m : ThreadMessage)
  | updateClosed (id : Nat) (closed : Bool)
deriving DecidableEq

/-- Whether a write is a thread-message insert. -/
def isPostMessage : Write → Bool
  | .postMessage _ => true
  | _ => false

/-- Outward result of `PATCH /report/{id}`: 204, 404 with empty body, or the
400 `InvalidInput` error. -/
inductive EditOutcome where
  | noContent
  | notFound
  | invalidInput (msg : String)
deriving DecidableEq

/-- Whether an edit outcome is the 400 `InvalidInput` error. -/
def isInvalidInput : EditOutcome → Bool
  | .invalidInput _ => true
  | _ => false

/-- The `UPDATE reports SET body` write, issued when the request provides a
body. -/
def bodyWrites (id : Nat) (e : EditReport) : List Write :=
  match e.body with
  | some b => [.updateBody id b]
  | none => []

/-- `report_edit` (`src/routes/v2/reports.rs`).  Returns the outward outcome
together with the list of row writes the transaction committed, in issue
order; an error return drops the open transaction, so nothing is committed
(the list is empty).  Control flow of the source: load row (404 when absent);
404 when the caller is neither moderator nor the report's `user_id` target;
begin transaction; optional body update; if `closed` is provided: 400 for a
non-moderator (rollback), otherwise a thread message is inserted (when a
thread is bound) — `ThreadReopen` exactly when the new value is `false` and
the stored flag was `true`, `ThreadClosure` otherwise — followed by the
`closed` column update; commit. -/
def report_edit (st : ReportStore) (caller : Nat) (isMod : Bool) (id : Nat)
    (edit : EditReport) : EditOutcome × List Write :=
  match report_get_row st id with
  | none => (.notFound, [])
  | some report =>
    if !isMod && report.user_id != some caller then (.notFound, [])
    else
      match edit.closed with
      | some c =>
        if !isMod then (.invalidInput "You cannot reopen a report!", [])
        else
          let msgWrites : List Write :=
            match report.thread_id with
            | some t =>
                [.postMessage
                  { author_id := some caller
                    body := if !c && report.closed then .threadReopen
                            else .threadClosure
                    thread_id := t }]
            | none => []
          (.noContent, bodyWrites id edit ++ msgWrites ++ [.updateClosed id c])
      | none => (.noContent, bodyWrites id edit)

/-- Visible database state touched by an edit: the reports table and the
thread-message rows. -/
abbrev EditState := ReportStore × List ThreadMessage

/-- Apply one committed write to the state. -/
def applyWrite (s : EditState) : Write → EditState
  | .updateBody id b =>
      (s.1.map (fun r => if r.id == id then { r with body := b } else r), s.2)
  | .postMessage m => (s.1, s.2 ++ [m])
  | .updateClosed id c =>
      (s.1.map (fun r => if r.id == id then { r with closed := c } else r), s.2)

/-- Apply a committed write batch in order. -/
def applyWrites (s : EditState) (ws : List Write) : EditState :=
  ws.foldl applyWrite s

/-- `GET /report` (`reports` in `src/routes/v2/reports.rs`): the first query
selects ids of open reports — all of them for a moderator with `all=true`,
otherwise only the caller's own — ordered `created ASC`, `LIMIT count`; the
selected ids are then re-fetched through `Report::get_many` (which orders
`created DESC`) and rendered with `to_report`. -/
def reports_handler (st : ReportStore) (caller : Nat) (isMod : Bool)
    (count : Nat) (all : Bool) : List ReportView :=
  let ids : List Nat :=
    if isMod && all then
      ((List.insertionSort byCreatedAsc
          (st.filter (fun r => !r.closed))).take count).map (fun r => r.id)
    else
      ((List.insertionSort byCreatedAsc
          (st.filter (fun r => !r.closed && r.reporter == caller))).take
        count).map (fun r => r.id)
  (get_many st ids).map to_report

/-- External entities the creation path checks against: the `mods`,
`versions` and `users` tables (Entity Existence Oracle) and the
`report_types` catalog. -/
structure CreateEnv where
  projects : List Nat
  versions : List Nat
  users : List Nat
  reportTypes : List (String × Nat)
deriving DecidableEq

/-- The `POST /report` JSON body (`CreateReport` in
`src/routes/v2/reports.rs`), with the item id already decoded. -/
structure CreateReport where
  report_type : String
  item_id : Nat
  item_type : ItemType
  body : String
deriving DecidableEq

/-- A raw report row as inserted by `Report::insert`
(`src/database/models/report_item.rs`). -/
structure DbReport where
  id : Nat
  report_type_id : Nat
  project_id : Option Nat
  version_id : Option Nat
  user_id : Option Nat
  body : String
  reporter : Nat
  created : Int
  closed : Bool
  thread_id : Nat
deriving DecidableEq

/-- `ReportType::get_id`: resolves a report-type name through the catalog. -/
def reportTypeGetId (env : CreateEnv) (name : String) : Option Nat :=
  (env.reportTypes.find? (fun t => t.1 == name)).map (fun t => t.2)

/-- `report_create` (`src/routes/v2/reports.rs`), reduced to the inserted
row: resolves the report-type name (400 when unknown); starts from a row with
all three target columns `NULL`; then, per `item_type`, checks the target
exists (400 otherwise) and sets exactly that target column;
`ItemType::Unknown` is rejected with 400.  The freshly minted report and
thread ids are passed in. -/
def report_create (env : CreateEnv) (reporter : Nat) (new : CreateReport)
    (freshReportId freshThreadId : Nat) (now : Int) :
    Except ApiError DbReport :=
  match reportTypeGetId env new.report_type with
  | none => .error (.invalidInput ("Invalid report type: " ++ new.report_type))
  | some rt =>
    let base : DbReport :=
      { id := freshReportId
        report_type_id := rt
        project_id := none
        version_id := none
        user_id := none
        body := new.body
        reporter := reporter
        created := now
        closed := false
        thread_id := freshThreadId }
    match new.item_type with
    | .project =>
        if env.projects.contains new.item_id then
          .ok { base with project_id := some new.item_id }
        else .error (.invalidInput "Project could not be found")
    | .version =>
        if env.versions.contains new.item_id then
          .ok { base with version_id := some new.item_id }
        else .error (.invalidInput "Version could not be found")
    | .user =>
        if env.users.contains new.item_id then
          .ok { base with user_id := some new.item_id }
        else .error (.invalidInput "User could not be found")
    | .unknown => .error (.invalidInput "Invalid report item type")

/-- Number of target columns set on a stored report row. -/
def targetCount (r : DbReport) : Nat :=
  (if r.project_id.isSome then 1 else 0) +
    (if r.version_id.isSome then 1 else 0) +
    (if r.user_id.isSome then 1 else 0)

/-! Theorems. -/

/-- C6: `resolve` (`get_user_from_pat`) fails closed — it returns no identity
both when no stored token carries the presented secret and when the matching
token's `expires_at` lies before the current time; yet such an expired token
is still returned by the owner's `list` (`get_pats`), which applies no expiry
filter. -/
theorem pat_resolve_fails_closed (store : PatStore) (secret : Nat) (now : Int)
    (p : Pat) :
    ((∀ q ∈ store, q.access_token ≠ secret) →
        get_user_from_pat store secret now = none)
    ∧ (store.find? (fun q => q.access_token == secret) = some p →
        p.expires_at < now →
          get_user_from_pat store secret now = none ∧
            p ∈ get_pats store p.user_id) := by
  constructor
  · intro h
    unfold get_user_from_pat
    have hnone : store.find? (fun q => q.access_token == secret) = none := by
      rw [List.find?_eq_none]
      intro x hx
      simpa using h x hx
    rw [hnone]
  · intro hfind hexp
    refine ⟨?_, ?_⟩
    · unfold get_user_from_pat
      rw [hfind]
      simp [hexp]
    · have hmem := List.mem_of_find?_eq_some hfind
      unfold get_pats
      simp [List.mem_filter, hmem]

/-- C6 witness: the secret 2 is stored but expired at time 0, so it resolves
to no identity while remaining in the owner's list. -/
theorem pat_resolve_fails_closed_witness :
    get_user_from_pat [⟨1, 2, 7, "read", -5⟩] 2 0 = none ∧
      (⟨1, 2, 7, "read", -5⟩ : Pat) ∈ get_pats [⟨1, 2, 7, "read", -5⟩] 7 :=
  (pat_resolve_fails_closed [⟨1, 2, 7, "read", -5⟩] 2 0
    ⟨1, 2, 7, "read", -5⟩).2 (by decide) (by decide)

/-- C7 (amended): creating a PAT with a nonnegative `expire_in_days = d` and
a fresh secret persists exactly one new row whose `expires_at` equals the
creation time plus `d` days, echoes the full token (id, secret, owner, expiry)
back, and resolving the returned secret immediately afterwards yields the
owning user.  (With a negative `d` the row is created already expired and
resolution yields no identity — see the counterexample.) -/
theorem pat_create_resolve (store : PatStore) (owner : Nat) (scope : String)
    (d now : Int) (pid sec : Nat)
    (hd : 0 ≤ d) (hfresh : freshSecretFor store sec) :
    (create_pat store owner scope d now pid sec).1.expires_at
        = now + d * secondsPerDay
    ∧ (create_pat store owner scope d now pid sec).1.access_token = sec
    ∧ (create_pat store owner scope d now pid sec).1.id = pid
    ∧ (create_pat store owner scope d now pid sec).1.user_id = owner
    ∧ (create_pat store owner scope d now pid sec).2
        = store ++ [(create_pat store owner scope d now pid sec).1]
    ∧ get_user_from_pat (create_pat store owner scope d now pid sec).2 sec now
        = some owner := by
  refine ⟨rfl, rfl, rfl, rfl, rfl, ?_⟩
  unfold get_user_from_pat create_pat
  have h1 : store.find? (fun p => p.access_token == sec) = none := by
    rw [List.find?_eq_none]
    intro x hx
    simpa using hfresh x hx
  rw [List.find?_append, h1]
  have h2 : (0 : Int) ≤ d * secondsPerDay :=
    mul_nonneg hd (by norm_num [secondsPerDay])
  simp only [Option.none_or, List.find?_cons, beq_self_eq_true]
  have h3 : ¬(now + d * secondsPerDay < now) := by omega
  simp [h3]

/-- C7 witness: creating with `d = 30` at time 0 into an empty store and
resolving the returned secret right away yields the owner. -/
theorem pat_create_resolve_witness :
    (create_pat [] 7 "read" 30 0 1 2).1.expires_at = 0 + 30 * secondsPerDay
    ∧ (create_pat [] 7 "read" 30 0 1 2).1.access_token = 2
    ∧ (create_pat [] 7 "read" 30 0 1 2).1.id = 1
    ∧ (create_pat [] 7 "read" 30 0 1 2).1.user_id = 7
    ∧ (create_pat [] 7 "read" 30 0 1 2).2
        = [] ++ [(create_pat [] 7 "read" 30 0 1 2).1]
    ∧ get_user_from_pat (create_pat [] 7 "read" 30 0 1 2).2 2 0 = some 7 :=
  pat_create_resolve [] 7 "read" 30 0 1 2 (by decide) (by decide)

/-- C7 counterexample: with `expire_in_days = -1` the row is persisted
already expired, so resolving the freshly returned secret immediately
afterwards yields no identity instead of the owning user. -/
theorem pat_create_negative_ttl_counterexample :
    get_user_from_pat (create_pat [] 7 "read" (-1) 0 1 2).2 2 0 = none ∧
      (create_pat [] 7 "read" (-1) 0 1 2).1.access_token = 2 ∧
      (create_pat [] 7 "read" (-1) 0 1 2).1.user_id = 7 := by
  decide

/-- C8: PAT edit looks the token up by the `(secret, owner)` pair and fails
with not-found when no stored row carries both — in particular when the
secret belongs to a different user; on a match, each provided field replaces
the stored value, and a provided ttl recomputes `expires_at` as now plus the
ttl, not relative to the old expiry. -/
theorem edit_pat_pair_lookup (store : PatStore) (caller tok : Nat)
    (s? : Option String) (d? : Option Int) (now : Int) :
    ((∀ p ∈ store, p.access_token = tok → p.user_id ≠ caller) →
        edit_pat store caller tok s? d? now = .error .notFoundError)
    ∧ (∀ row, store.find? (patMatches tok caller) = some row →
        ∃ p st', edit_pat store caller tok s? d? now = .ok (p, st')
          ∧ p.scope = s?.getD row.scope
          ∧ p.expires_at = (match d? with
              | some d => now + d * secondsPerDay
              | none => row.expires_at)) := by
  constructor
  · intro h
    unfold edit_pat
    have hnone : store.find? (patMatches tok caller) = none := by
      rw [List.find?_eq_none]
      intro x hx
      simp only [patMatches, Bool.and_eq_true, beq_iff_eq]
      rintro ⟨h1, h2⟩
      exact h x hx h1 h2
    rw [hnone]
  · intro row hfind
    unfold edit_pat
    rw [hfind]
    exact ⟨_, _, rfl, rfl, rfl⟩

/-- C8 witness: a stored `(secret 2, owner 7)` token edited by owner 7 with a
new scope and a 3-day ttl gets both fields replaced and the expiry recomputed
from the current time. -/
theorem edit_pat_pair_lookup_witness :
    ∃ p st', edit_pat [⟨1, 2, 7, "read", 100⟩] 7 2 (some "write") (some 3) 0
        = .ok (p, st')
      ∧ p.scope = (some "write").getD (Pat.scope ⟨1, 2, 7, "read", 100⟩)
      ∧ p.expires_at = 0 + 3 * secondsPerDay :=
  (edit_pat_pair_lookup [⟨1, 2, 7, "read", 100⟩] 7 2 (some "write") (some 3)
    0).2 ⟨1, 2, 7, "read", 100⟩ (by decide)

/-- C10: a successful PAT edit leaves everything but `scope` / `expires_at`
alone — the written-back row keeps the previously read id, secret value and
owning user, and every other stored row survives unchanged. -/
theorem edit_pat_frame (store : PatStore) (caller tok : Nat)
    (s? : Option String) (d? : Option Int) (now : Int) (row : Pat)
    (hfind : store.find? (patMatches tok caller) = some row) :
    ∃ p st', edit_pat store caller tok s? d? now = .ok (p, st')
      ∧ p.id = row.id ∧ p.access_token = row.access_token
      ∧ p.user_id = row.user_id
      ∧ (∀ q ∈ store, q.id ≠ row.id → q ∈ st') := by
  have hmatch : patMatches tok caller row = true := List.find?_some hfind
  have huser : row.user_id = caller := by
    simp only [patMatches, Bool.and_eq_true, beq_iff_eq] at hmatch
    exact hmatch.2
  unfold edit_pat
  rw [hfind]
  refine ⟨_, _, rfl, rfl, rfl, huser.symm, ?_⟩
  intro q hq hne
  rw [List.mem_map]
  exact ⟨q, hq, by simp [hne]⟩

/-- C10 witness: editing the stored `(secret 2, owner 7)` token preserves its
id, secret and owner, and leaves the unrelated row with id 9 in place. -/
theorem edit_pat_frame_witness :
    ∃ p st',
      edit_pat [⟨1, 2, 7, "read", 100⟩, ⟨9, 3, 8, "s", 50⟩] 7 2 none (some 3) 0
          = .ok (p, st')
        ∧ p.id = 1 ∧ p.access_token = 2 ∧ p.user_id = 7
        ∧ (∀ q ∈ [(⟨1, 2, 7, "read", 100⟩ : Pat), ⟨9, 3, 8, "s", 50⟩],
            q.id ≠ 1 → q ∈ st') :=
  edit_pat_frame [⟨1, 2, 7, "read", 100⟩, ⟨9, 3, 8, "s", 50⟩] 7 2 none
    (some 3) 0 ⟨1, 2, 7, "read", 100⟩ (by decide)

/-- Helper: a non-moderator whose id is not the report's user-target gets the
masked not-found pair from `report_edit`, with no committed writes. -/
theorem report_edit_unauthorized (st : ReportStore) (caller rid : Nat)
    (r : QueryReport) (e : EditReport)
    (hget : report_get_row st rid = some r)
    (huid : r.user_id ≠ some caller) :
    report_edit st caller false rid e = (.notFound, []) := by
  unfold report_edit
  rw [hget]
  simp [huid]

/-- C1 counterexample: user 5 (non-moderator) PATCHes the existing report 1 —
whose user-target is 7, so the caller does not own it — with `closed = true`;
the outcome is the masked 404 not-found, not the claimed 400 `InvalidInput`. -/
theorem edit_nonowner_closed_400_counterexample :
    (report_edit [⟨1, "spam", some 3, none, some 7, "b", 4, 10, false, some 5⟩]
        5 false 1 ⟨none, some true⟩).1 = .notFound
    ∧ isInvalidInput
        (report_edit
          [⟨1, "spam", some 3, none, some 7, "b", 4, 10, false, some 5⟩]
          5 false 1 ⟨none, some true⟩).1 = false := by
  decide

/-- C1 (amended): for an authenticated non-moderator and an existing report
whose user-target is not the caller, `PATCH /report/{id}` with `closed = true`
returns the masked 404 not-found, commits no writes, and leaves the stored
reports and thread messages unchanged.  (The 400 `InvalidInput` arises only
for a non-moderator who passes the user-target ownership check and sets
`closed`.) -/
theorem edit_nonowner_closed_notFound (st : ReportStore)
    (msgs : List ThreadMessage) (caller rid : Nat) (r : QueryReport)
    (e : EditReport)
    (hget : report_get_row st rid = some r)
    (hown : r.user_id ≠ some caller)
    (_hclosed : e.closed = some true) :
    (report_edit st caller false rid e).1 = .notFound
    ∧ (report_edit st caller false rid e).2 = []
    ∧ applyWrites (st, msgs) (report_edit st caller false rid e).2
        = (st, msgs) := by
  have h := report_edit_unauthorized st caller rid r e hget hown
  rw [h]
  exact ⟨rfl, rfl, rfl⟩

/-- C1 witness: instance of the amended statement on the counterexample
store. -/
theorem edit_nonowner_closed_notFound_witness :
    (report_edit [⟨1, "spam", some 3, none, some 7, "b", 4, 10, false, some 5⟩]
        5 false 1 ⟨none, some true⟩).1 = .notFound
    ∧ (report_edit
        [⟨1, "spam", some 3, none, some 7, "b", 4, 10, false, some 5⟩]
        5 false 1 ⟨none, some true⟩).2 = []
    ∧ applyWrites
        ([⟨1, "spam", some 3, none, some 7, "b", 4, 10, false, some 5⟩], [])
        (report_edit
          [⟨1, "spam", some 3, none, some 7, "b", 4, 10, false, some 5⟩]
          5 false 1 ⟨none, some true⟩).2
      = ([⟨1, "spam", some 3, none, some 7, "b", 4, 10, false, some 5⟩], []) :=
  edit_nonowner_closed_notFound
    [⟨1, "spam", some 3, none, some 7, "b", 4, 10, false, some 5⟩] [] 5 1
    ⟨1, "spam", some 3, none, some 7, "b", 4, 10, false, some 5⟩
    ⟨none, some true⟩ (by decide) (by decide) (by decide)

/-- C2: for an existing report, the edit passes authorization iff the caller
is a moderator or the report's optional user-target equals the caller — the
reporter identity plays no role — and an unauthorized non-moderator receives
exactly the not-found outcome (404 pair with no writes) produced for a
nonexistent report id. -/
theorem edit_authorization_characterization (st : ReportStore)
    (caller rid : Nat) (isMod : Bool) (r : QueryReport) (e : EditReport)
    (hget : report_get_row st rid = some r) :
    ((report_edit st caller isMod rid e).1 ≠ .notFound
        ↔ (isMod = true ∨ r.user_id = some caller))
    ∧ (¬(isMod = true ∨ r.user_id = some caller) →
        report_edit st caller isMod rid e = (.notFound, []))
    ∧ (∀ badId, report_get_row st badId = none →
        report_edit st caller isMod badId e = (.notFound, [])) := by
  have hfail : ∀ hm : isMod = false, r.user_id ≠ some caller →
      report_edit st caller isMod rid e = (.notFound, []) := by
    intro hm huid
    subst hm
    exact report_edit_unauthorized st caller rid r e hget huid
  have hpass : (isMod = true ∨ r.user_id = some caller) →
      (report_edit st caller isMod rid e).1 ≠ .notFound := by
    intro hauth
    unfold report_edit
    rw [hget]
    cases isMod with
    | true =>
      cases hc : e.closed <;> simp [hc]
    | false =>
      have h : r.user_id = some caller := by
        rcases hauth with h | h
        · exact absurd h (by simp)
        · exact h
      cases hc : e.closed <;> simp [hc, h]
  refine ⟨?_, ?_, ?_⟩
  · constructor
    · intro hne
      by_contra hno
      push_neg at hno
      have hm : isMod = false := by
        cases isMod
        · rfl
        · exact absurd rfl hno.1
      exact hne (by rw [hfail hm hno.2])
    · exact hpass
  · intro hno
    push_neg at hno
    have hm : isMod = false := by
      cases isMod
      · rfl
      · exact absurd rfl hno.1
    exact hfail hm hno.2
  · intro badId hbad
    unfold report_edit
    rw [hbad]

/-- C2 witness: on a store with a single report user-targeting 7, a
non-moderator caller 5 fails authorization exactly as for a missing id, and
the characterization instance holds. -/
theorem edit_authorization_characterization_witness :
    ((report_edit [⟨1, "spam", some 3, none, some 7, "b", 4, 10, false, some 5⟩]
        5 false 1 ⟨some "x", none⟩).1 ≠ .notFound
      ↔ (false = true ∨ some 7 = some 5))
    ∧ (¬(false = true ∨ some 7 = some 5) →
        report_edit [⟨1, "spam", some 3, none, some 7, "b", 4, 10, false, some 5⟩]
          5 false 1 ⟨some "x", none⟩ = (.notFound, []))
    ∧ (∀ badId,
        report_get_row
          [⟨1, "spam", some 3, none, some 7, "b", 4, 10, false, some 5⟩] badId
          = none →
        report_edit [⟨1, "spam", some 3, none, some 7, "b", 4, 10, false, some 5⟩]
          5 false badId ⟨some "x", none⟩ = (.notFound, [])) := by
  have h := edit_authorization_characterization
    [⟨1, "spam", some 3, none, some 7, "b", 4, 10, false, some 5⟩] 5 1 false
    ⟨1, "spam", some 3, none, some 7, "b", 4, 10, false, some 5⟩
    ⟨some "x", none⟩ (by decide)
  exact h

/-- C3 counterexample: moderator 9 edits the open (`closed = false`) report 1
with `closed = false` — which does not flip the flag — yet a `threadClosure`
message write is committed ahead of the row update; the claim predicts no
message for an edit that does not flip `closed`. -/
theorem edit_closed_message_flip_counterexample :
    (report_edit [⟨1, "spam", some 3, none, some 7, "b", 4, 10, false, some 5⟩]
        9 true 1 ⟨none, some false⟩).2
      = [Write.postMessage ⟨some 9, .threadClosure, 5⟩,
         Write.updateClosed 1 false]
    ∧ (⟨1, "spam", some 3, none, some 7, "b", 4, 10, false, some 5⟩
        : QueryReport).closed = false := by
  decide

/-- C3 (amended): on a moderator's edit of an existing report with a bound
thread, a thread message is committed iff the request provides the `closed`
field — whether or not the stored flag actually flips: exactly one message,
of kind `threadReopen` when the new value is `false` and the stored flag was
`true`, of kind `threadClosure` otherwise, authored by the acting moderator
and placed immediately before the `closed` row update inside the same
committed write batch; an edit that omits `closed` commits no message and
still succeeds. -/
theorem edit_closed_message_on_provided (st : ReportStore) (caller rid t : Nat)
    (r : QueryReport)
    (hget : report_get_row st rid = some r)
    (hthread : r.thread_id = some t) :
    (∀ (e : EditReport) (c : Bool), e.closed = some c →
      report_edit st caller true rid e =
        (.noContent,
          bodyWrites rid e ++
            [.postMessage
              { author_id := some caller
                body := if c = false ∧ r.closed = true then .threadReopen
                        else .threadClosure
                thread_id := t },
             .updateClosed rid c])
      ∧ (report_edit st caller true rid e).2.countP isPostMessage = 1)
    ∧ (∀ e : EditReport, e.closed = none →
        (report_edit st caller true rid e).2.countP isPostMessage = 0
        ∧ (report_edit st caller true rid e).1 = .noContent) := by
  have hbody : ∀ e : EditReport, (bodyWrites rid e).countP isPostMessage = 0 := by
    intro e
    cases hb : e.body <;> simp [bodyWrites, hb, isPostMessage]
  constructor
  · intro e c hc
    have key : report_edit st caller true rid e =
        (.noContent,
          bodyWrites rid e ++
            [.postMessage
              { author_id := some caller
                body := if c = false ∧ r.closed = true then .threadReopen
                        else .threadClosure
                thread_id := t },
             .updateClosed rid c]) := by
      unfold report_edit
      rw [hget]
      cases c <;> cases hrc : r.closed <;>
        simp [hc, hthread, hrc]
    refine ⟨key, ?_⟩
    rw [key]
    simp [List.countP_append, hbody e, isPostMessage]
  · intro e hc
    have key : report_edit st caller true rid e =
        (.noContent, bodyWrites rid e) := by
      unfold report_edit
      rw [hget]
      simp [hc]
    rw [key]
    exact ⟨hbody e, rfl⟩

/-- C3 witness: instance of the amended statement — a non-flip `closed=false`
edit commits exactly one `threadClosure` message right before the row update,
and a body-only edit commits none. -/
theorem edit_closed_message_on_provided_witness :
    (report_edit [⟨1, "spam", some 3, none, some 7, "b", 4, 10, false, some 5⟩]
        9 true 1 ⟨none, some false⟩ =
      (.noContent,
        bodyWrites 1 ⟨none, some false⟩ ++
          [.postMessage
            { author_id := some 9
              body := if false = false ∧
                  (⟨1, "spam", some 3, none, some 7, "b", 4, 10, false, some 5⟩
                    : QueryReport).closed = true then .threadReopen
                else .threadClosure
              thread_id := 5 },
           .updateClosed 1 false])
      ∧ (report_edit
          [⟨1, "spam", some 3, none, some 7, "b", 4, 10, false, some 5⟩]
          9 true 1 ⟨none, some false⟩).2.countP isPostMessage = 1)
    ∧ ((report_edit
          [⟨1, "spam", some 3, none, some 7, "b", 4, 10, false, some 5⟩]
          9 true 1 ⟨some "z", none⟩).2.countP isPostMessage = 0
        ∧ (report_edit
            [⟨1, "spam", some 3, none, some 7, "b", 4, 10, false, some 5⟩]
            9 true 1 ⟨some "z", none⟩).1 = .noContent) :=
  ⟨(edit_closed_message_on_provided
      [⟨1, "spam", some 3, none, some 7, "b", 4, 10, false, some 5⟩] 9 1 5
      ⟨1, "spam", some 3, none, some 7, "b", 4, 10, false, some 5⟩
      (by decide) (by decide)).1 ⟨none, some false⟩ false rfl,
   (edit_closed_message_on_provided
      [⟨1, "spam", some 3, none, some 7, "b", 4, 10, false, some 5⟩] 9 1 5
      ⟨1, "spam", some 3, none, some 7, "b", 4, 10, false, some 5⟩
      (by decide) (by decide)).2 ⟨some "z", none⟩ rfl⟩

/-- C5: for a non-moderator caller who is not the reporter, `GET /report/{id}`
on an existing report produces the very same outward outcome — the 404
empty-body response — as on a nonexistent id, so the two runs are
indistinguishable to the caller. -/
theorem get_masking_indistinguishable (st : ReportStore)
    (caller rid badId : Nat) (r : QueryReport)
    (hget : report_get_row st rid = some r)
    (hrep : r.reporter ≠ caller)
    (hbad : report_get_row st badId = none) :
    report_get st caller false rid = report_get st caller false badId
    ∧ report_get st caller false rid = .notFound := by
  have h1 : report_get st caller false rid = .notFound := by
    unfold report_get
    rw [hget]
    simp [hrep]
  have h2 : report_get st caller false badId = .notFound := by
    unfold report_get
    rw [hbad]
  exact ⟨h1.trans h2.symm, h1⟩

/-- C5 witness: caller 5 is neither moderator nor reporter of the stored
report 1, and reads of id 1 and of the absent id 2 coincide. -/
theorem get_masking_indistinguishable_witness :
    report_get [⟨1, "spam", some 3, none, some 7, "b", 4, 10, false, some 5⟩]
        5 false 1
      = report_get
          [⟨1, "spam", some 3, none, some 7, "b", 4, 10, false, some 5⟩]
          5 false 2
    ∧ report_get [⟨1, "spam", some 3, none, some 7, "b", 4, 10, false, some 5⟩]
        5 false 1 = .notFound :=
  get_masking_indistinguishable
    [⟨1, "spam", some 3, none, some 7, "b", 4, 10, false, some 5⟩] 5 1 2
    ⟨1, "spam", some 3, none, some 7, "b", 4, 10, false, some 5⟩
    (by decide) (by decide) (by decide)

/-- Descending-created ordering on rendered views, matching the order the
listing response actually carries. -/
def viewCreatedGe (a b : ReportView) : Prop := b.created ≤ a.created

/-- Helper: the id-selection query's result set — open rows filtered by `p`,
sorted ascending, capped — is drawn from the table. -/
theorem take_sort_filter_subperm (st : ReportStore) (p : QueryReport → Bool)
    (n : Nat) :
    List.Subperm ((List.insertionSort byCreatedAsc (st.filter p)).take n) st := by
  have h1 : List.Sublist ((List.insertionSort byCreatedAsc (st.filter p)).take n)
      (List.insertionSort byCreatedAsc (st.filter p)) :=
    List.take_sublist n _
  have h2 : List.Perm (List.insertionSort byCreatedAsc (st.filter p)) (st.filter p) :=
    List.perm_insertionSort byCreatedAsc _
  exact (h1.subperm.trans h2.subperm).trans (List.filter_sublist st).subperm

/-- Helper: a sub-permutation of a duplicate-free list is duplicate-free. -/
theorem subperm_nodup {α : Type} {l₁ l₂ : List α} (h : List.Subperm l₁ l₂)
    (hnd : l₂.Nodup) : l₁.Nodup := by
  obtain ⟨t, htp, hts⟩ := h
  exact htp.nodup (hts.nodup hnd)

/-- Helper: when report ids are unique, re-fetching a selection of rows by
their ids (`WHERE r.id = ANY($1)`) returns exactly the selected rows, up to
order. -/
theorem filter_mem_ids_perm (st : ReportStore) (s : List QueryReport)
    (hnd : (st.map (fun r => r.id)).Nodup) (hsub : List.Subperm s st) :
    (st.filter (fun r => (s.map (fun x => x.id)).contains r.id)).Perm s := by
  have hstnd : st.Nodup := hnd.of_map
  have hsnd : s.Nodup := subperm_nodup hsub hstnd
  rw [List.perm_ext_iff_of_nodup (hstnd.filter _) hsnd]
  intro a
  simp only [List.mem_filter, List.contains_iff_exists_mem_beq, List.mem_map,
    beq_iff_eq]
  constructor
  · rintro ⟨ha, x, ⟨b, hb, hbid⟩, hax⟩
    have hbst : b ∈ st := hsub.subset hb
    have : b = a := List.inj_on_of_nodup_map hnd hbst ha (by rw [hbid, hax])
    rwa [this] at hb
  · intro ha
    exact ⟨hsub.subset ha, a.id, ⟨a, ha, rfl⟩, rfl⟩

/-- Helper: full characterization of the listing pipeline for an arbitrary
row filter `p`: the response is a permutation of the `p`-selected,
oldest-first, `n`-capped rows rendered to views, has at most `n` elements,
and is ordered newest-created-first. -/
theorem listing_pipeline (st : ReportStore) (p : QueryReport → Bool) (n : Nat)
    (hnd : (st.map (fun r => r.id)).Nodup) :
    ((get_many st
        (((List.insertionSort byCreatedAsc (st.filter p)).take n).map
          (fun r => r.id))).map to_report).Perm
        (((List.insertionSort byCreatedAsc (st.filter p)).take n).map
          to_report)
    ∧ ((get_many st
        (((List.insertionSort byCreatedAsc (st.filter p)).take n).map
          (fun r => r.id))).map to_report).length ≤ n
    ∧ List.Sorted viewCreatedGe
        ((get_many st
          (((List.insertionSort byCreatedAsc (st.filter p)).take n).map
            (fun r => r.id))).map to_report) := by
  have hrows : (st.filter
      (fun r =>
        (((List.insertionSort byCreatedAsc (st.filter p)).take n).map
          (fun x => x.id)).contains r.id)).Perm
      ((List.insertionSort byCreatedAsc (st.filter p)).take n) :=
    filter_mem_ids_perm st _ hnd (take_sort_filter_subperm st p n)
  have hsortperm : (get_many st
      (((List.insertionSort byCreatedAsc (st.filter p)).take n).map
        (fun r => r.id))).Perm
      ((List.insertionSort byCreatedAsc (st.filter p)).take n) :=
    (List.perm_insertionSort byCreatedDesc _).trans hrows
  refine ⟨hsortperm.map to_report, ?_, ?_⟩
  · rw [List.length_map, hsortperm.length_eq, List.length_take]
    exact min_le_left _ _
  · have hs : List.Sorted byCreatedDesc
        (get_many st
          (((List.insertionSort byCreatedAsc (st.filter p)).take n).map
            (fun r => r.id))) :=
      List.sorted_insertionSort byCreatedDesc _
    exact List.Pairwise.map to_report (fun a b h => h) hs

/-- C4 counterexample: a moderator lists with `all = true, count = 2` over a
store holding two open reports created at times 10 and 20; the response
carries them newest-first (`[20, 10]`), not oldest-created-first as claimed. -/
theorem reports_listing_order_counterexample :
    ((reports_handler
        [⟨1, "spam", none, none, none, "a", 4, 10, false, none⟩,
         ⟨2, "spam", none, none, none, "b", 4, 20, false, none⟩]
        99 true 2 true).map (fun v => v.created)) = [20, 10] := by
  decide

/-- C4 (amended): assuming unique report ids, a moderator's `all = true`
listing returns exactly the (at most `count`) oldest open reports
platform-wide, and every other caller (or a moderator with `all = false`)
gets exactly their own (at most `count`) oldest open reports — but in both
cases the response array is ordered newest-created-first (`created`
descending, from `get_many`'s re-fetch), not oldest-first. -/
theorem reports_listing_characterization (st : ReportStore) (caller : Nat)
    (count : Nat) (hnd : (st.map (fun r => r.id)).Nodup) :
    ((reports_handler st caller true count true).Perm
        (((List.insertionSort byCreatedAsc
            (st.filter (fun r => !r.closed))).take count).map to_report)
      ∧ (reports_handler st caller true count true).length ≤ count
      ∧ List.Sorted viewCreatedGe (reports_handler st caller true count true))
    ∧ (∀ isMod all : Bool, (isMod && all) = false →
        ((reports_handler st caller isMod count all).Perm
            (((List.insertionSort byCreatedAsc
                (st.filter (fun r => !r.closed && r.reporter == caller))).take
              count).map to_report)
          ∧ (reports_handler st caller isMod count all).length ≤ count
          ∧ List.Sorted viewCreatedGe
              (reports_handler st caller isMod count all))) := by
  constructor
  · have heq : reports_handler st caller true count true =
        (get_many st
          (((List.insertionSort byCreatedAsc
              (st.filter (fun r => !r.closed))).take count).map
            (fun r => r.id))).map to_report := by
      simp [reports_handler]
    rw [heq]
    exact listing_pipeline st (fun r => !r.closed) count hnd
  · intro isMod all hm
    have heq : reports_handler st caller isMod count all =
        (get_many st
          (((List.insertionSort byCreatedAsc
              (st.filter (fun r => !r.closed && r.reporter == caller))).take
            count).map (fun r => r.id))).map to_report := by
      simp [reports_handler, hm]
    rw [heq]
    exact listing_pipeline st
      (fun r => !r.closed && r.reporter == caller) count hnd

/-- C4 witness: the characterization instantiated on the two-report store of
the counterexample, for the moderator `all = true` branch and for a plain
caller. -/
theorem reports_listing_characterization_witness :
    ((reports_handler
        [⟨1, "spam", none, none, none, "a", 4, 10, false, none⟩,
         ⟨2, "spam", none, none, none, "b", 4, 20, false, none⟩]
        99 true 2 true).Perm
        (((List.insertionSort byCreatedAsc
            (([⟨1, "spam", none, none, none, "a", 4, 10, false, none⟩,
               ⟨2, "spam", none, none, none, "b", 4, 20, false, none⟩]
              : ReportStore).filter (fun r => !r.closed))).take 2).map
          to_report)
      ∧ (reports_handler
          [⟨1, "spam", none, none, none, "a", 4, 10, false, none⟩,
           ⟨2, "spam", none, none, none, "b", 4, 20, false, none⟩]
          99 true 2 true).length ≤ 2
      ∧ List.Sorted viewCreatedGe
          (reports_handler
            [⟨1, "spam", none, none, none, "a", 4, 10, false, none⟩,
             ⟨2, "spam", none, none, none, "b", 4, 20, false, none⟩]
            99 true 2 true))
    ∧ ((reports_handler
          [⟨1, "spam", none, none, none, "a", 4, 10, false, none⟩,
           ⟨2, "spam", none, none, none, "b", 4, 20, false, none⟩]
          4 false 2 true).Perm
          (((List.insertionSort byCreatedAsc
              (([⟨1, "spam", none, none, none, "a", 4, 10, false, none⟩,
                 ⟨2, "spam", none, none, none, "b", 4, 20, false, none⟩]
                : ReportStore).filter
                (fun r => !r.closed && r.reporter == 4))).take 2).map
            to_report)
        ∧ (reports_handler
            [⟨1, "spam", none, none, none, "a", 4, 10, false, none⟩,
             ⟨2, "spam", none, none, none, "b", 4, 20, false, none⟩]
            4 false 2 true).length ≤ 2
        ∧ List.Sorted viewCreatedGe
            (reports_handler
              [⟨1, "spam", none, none, none, "a", 4, 10, false, none⟩,
               ⟨2, "spam", none, none, none, "b", 4, 20, false, none⟩]
              4 false 2 true)) :=
  ⟨(reports_listing_characterization
      [⟨1, "spam", none, none, none, "a", 4, 10, false, none⟩,
       ⟨2, "spam", none, none, none, "b", 4, 20, false, none⟩]
      99 2 (by decide)).1,
   (reports_listing_characterization
      [⟨1, "spam", none, none, none, "a", 4, 10, false, none⟩,
       ⟨2, "spam", none, none, none, "b", 4, 20, false, none⟩]
      4 2 (by decide)).2 false true rfl⟩

/-- C9: a successful report creation stores exactly one of the three target
columns {project, version, user}, never more; and rendering a stored row with
no target set yields `item_type = unknown`. -/
theorem report_target_exclusivity :
    (∀ (env : CreateEnv) (reporter : Nat) (new : CreateReport)
        (rid tid : Nat) (now : Int) (row : DbReport),
      report_create env reporter new rid tid now = .ok row →
        targetCount row = 1)
    ∧ (∀ q : QueryReport, q.project_id = none → q.version_id = none →
        q.user_id = none → (to_report q).item_type = .unknown) := by
  constructor
  · intro env reporter new rid tid now row h
    unfold report_create at h
    cases hrt : reportTypeGetId env new.report_type <;> rw [hrt] at h
    · exact Except.noConfusion h
    · cases hit : new.item_type <;> rw [hit] at h
      · by_cases hc : env.projects.contains new.item_id = true
        · simp only [hc, if_true, Except.ok.injEq] at h
          subst h
          simp [targetCount]
        · simp only [hc, if_false] at h
          exact Except.noConfusion h
      · by_cases hc : env.versions.contains new.item_id = true
        · simp only [hc, if_true, Except.ok.injEq] at h
          subst h
          simp [targetCount]
        · simp only [hc, if_false] at h
          exact Except.noConfusion h
      · by_cases hc : env.users.contains new.item_id = true
        · simp only [hc, if_true, Except.ok.injEq] at h
          subst h
          simp [targetCount]
        · simp only [hc, if_false] at h
          exact Except.noConfusion h
      · exact Except.noConfusion h
  · intro q h1 h2 h3
    unfold to_report
    rw [h1, h2, h3]

/-- C9 witness: creating a project-targeted report against an oracle knowing
project 3 yields a row with exactly one target set, and a target-free row
renders as `unknown`. -/
theorem report_target_exclusivity_witness :
    targetCount
        { id := 1, report_type_id := 5, project_id := some 3,
          version_id := none, user_id := none, body := "b", reporter := 4,
          created := 10, closed := false, thread_id := 6 } = 1
    ∧ (to_report ⟨1, "spam", none, none, none, "b", 4, 10, false, none⟩).item_type
        = .unknown :=
  ⟨report_target_exclusivity.1 ⟨[3], [], [], [("spam", 5)]⟩ 4
      ⟨"spam", 3, .project, "b"⟩ 1 6 10
      { id := 1, report_type_id := 5, project_id := some 3,
        version_id := none, user_id := none, body := "b", reporter := 4,
        created := 10, closed := false, thread_id := 6 } (by rfl),
    report_target_exclusivity.2
      ⟨1, "spam", none, none, none, "b", 4, 10, false, none⟩ rfl rfl rfl⟩

end Minos
